import Mathlib

/-!
Verification development for the shellmate repository.

The embedding covers:
* `src/aws/lambda_function.py`: the `lambda_handler` HTTP adapter, the
  `generate_shell_command` retry/backoff loop over the Bedrock client, the
  response clean-up (`.replace('```bash','').replace('```','').strip()`),
  and `handle_cors_preflight`.
* `src/shellmate/src/shellmate.py`: `ShellMate.query_ai`,
  `ShellMate.execute_command`, `ShellMate.run` and `main`.

Strings are modelled as Lean `String` (lists of characters); exact rational
arithmetic (`ℚ`) stands for the floating-point delay values, whose exact
values (2, 4, 8, ... and 1, 1.5, 2, ...) are representable.  The opaque
network effects (the Bedrock call, the HTTP transport, `input()`,
`os.system`) are passed in as explicit parameters, so every function of the
embedding is a pure function of the request plus those oracles.
-/

/-- The backtick character, written via its code point. -/
def btick : Char := Char.ofNat 96

/-- The character class stripped by Python `str.strip()` (its ASCII part):
space, tab, newline, carriage return, vertical tab, form feed. -/
def pyIsSpace (c : Char) : Bool :=
  c = ' ' || c = '\t' || c = '\n' || c = '\r' || c = '\x0B' || c = '\x0C'

/-- Python `s.strip()` on a list of characters: drop the leading whitespace
run, then the trailing whitespace run. -/
def stripL (l : List Char) : List Char :=
  List.rdropWhile pyIsSpace (List.dropWhile pyIsSpace l)

/-- Python `s.strip()` on strings. -/
def pyStrip (s : String) : String := ⟨stripL s.data⟩

/-- Python `s.replace('```bash', '')` on a list of characters: remove every
(leftmost-first, non-overlapping) occurrence of the 7-character pattern.
A list shorter than the pattern is returned unchanged. -/
def removeBTBashL : List Char → List Char
  | c1 :: c2 :: c3 :: c4 :: c5 :: c6 :: c7 :: rest =>
    if c1 = btick ∧ c2 = btick ∧ c3 = btick ∧ c4 = 'b' ∧ c5 = 'a' ∧ c6 = 's' ∧ c7 = 'h' then
      removeBTBashL rest
    else
      c1 :: removeBTBashL (c2 :: c3 :: c4 :: c5 :: c6 :: c7 :: rest)
  | l => l

/-- Python `s.replace('```', '')` on a list of characters. -/
def removeBTL : List Char → List Char
  | c1 :: c2 :: c3 :: rest =>
    if c1 = btick ∧ c2 = btick ∧ c3 = btick then removeBTL rest
    else c1 :: removeBTL (c2 :: c3 :: rest)
  | l => l

/-- The response post-processing of `generate_shell_command`
(lambda_function.py lines 262-266): the extracted text is `.strip()`-ped,
then `.replace('```bash', '').replace('```', '').strip()`. -/
def sanitizeL (l : List Char) : List Char :=
  stripL (removeBTL (removeBTBashL (stripL l)))

/-- The response sanitizer on strings. -/
def sanitize (s : String) : String := ⟨sanitizeL s.data⟩

/-- Whether a list of characters contains three consecutive backticks
(the fenced-code marker) anywhere. -/
def hasBT3 : List Char → Bool
  | c1 :: c2 :: c3 :: rest =>
    decide (c1 = btick ∧ c2 = btick ∧ c3 = btick) || hasBT3 (c2 :: c3 :: rest)
  | _ => false

/-- The number of leading backticks of a list of characters. -/
def lead : List Char → Nat
  | [] => 0
  | c :: rest => if c = btick then lead rest + 1 else 0

section RetryMachine

/-- Outcome of one `bedrock.invoke_model` call: either the generated raw
text, or a `botocore` `ClientError` carrying an error code and message. -/
inductive BedrockResult where
  | ok (raw : String)
  | clientError (code : String) (message : String)
deriving DecidableEq, Repr

/-- The throttling error codes retried with exponential backoff
(lambda_function.py line 240). -/
def throttleCodes : List String :=
  ["ThrottlingException", "TooManyRequestsException", "ServiceQuotaExceededException"]

/-- The constant `max_retries = 5` (lambda_function.py line 216). -/
def max_retries : Nat := 5

/-- The constant `base_delay = 2` (lambda_function.py line 217). -/
def base_delay : ℚ := 2

/-- Python's `%` on (non-negative-divisor) floats: `x - ⌊x / m⌋ * m`. -/
def pyMod (x m : ℚ) : ℚ := x - ⌊x / m⌋ * m

deriving instance DecidableEq for Except

/-- Result of the retry loop: the raw text on success or the raised error
code on failure, together with the number of `invoke_model` calls made and
the list of `time.sleep` durations, in order. -/
structure RetryOutcome where
  result : Except String String
  attemptsMade : Nat
  sleeps : List ℚ
deriving DecidableEq, Repr

/-- The retry loop of `generate_shell_command` (lambda_function.py lines
219-257), started at attempt index `attempt`.  `backend n` is the outcome
of the Bedrock call on attempt `n`; `clock n` is the value `time.time()`
returns when the throttling delay of attempt `n` is computed, so the added
jitter is `pyMod (clock n) (1 / 2)` (the code's `time.time() % 0.5`).

* success → break out of the loop;
* a throttling code with `attempt < max_retries` → sleep
  `base_delay * 2 ** attempt + time.time() % 0.5`, continue;
* `ValidationException` → re-raise, no retry;
* any other `ClientError` code with `attempt < max_retries` → sleep
  `1 + attempt * 0.5`, continue;
* otherwise (retries exhausted) → re-raise. -/
def retryLoop (backend : Nat → BedrockResult) (clock : Nat → ℚ) (attempt : Nat) :
    RetryOutcome :=
  match backend attempt with
  | .ok raw => ⟨.ok raw, 1, []⟩
  | .clientError code _msg =>
    if h1 : code ∈ throttleCodes ∧ attempt < max_retries then
      let rest := retryLoop backend clock (attempt + 1)
      ⟨rest.result, rest.attemptsMade + 1,
        (base_delay * 2 ^ attempt + pyMod (clock attempt) (1 / 2)) :: rest.sleeps⟩
    else if code = "ValidationException" then
      ⟨.error code, 1, []⟩
    else if h3 : attempt < max_retries then
      let rest := retryLoop backend clock (attempt + 1)
      ⟨rest.result, rest.attemptsMade + 1,
        (1 + (attempt : ℚ) * (1 / 2)) :: rest.sleeps⟩
    else
      ⟨.error code, 1, []⟩
termination_by max_retries + 1 - attempt
decreasing_by
  · omega
  · omega

/-- Function `generate_shell_command` (lambda_function.py lines 89-273) with the
Bedrock call abstracted: run the retry loop from attempt 0; on success
sanitize the raw text; any raised exception is caught by the outer
`except` and turned into `None`. -/
def generate_shell_command (backend : Nat → BedrockResult) (clock : Nat → ℚ) :
    Option String :=
  match (retryLoop backend clock 0).result with
  | .ok raw => some (sanitize raw)
  | .error _ => none

end RetryMachine

section LambdaAdapter

/-- The JSON body of a lambda response: either `json.dumps({'error': msg})`
or `json.dumps({'command': command, 'query': query})`. -/
inductive RespBody where
  | errorMsg (msg : String)
  | success (command : String) (query : String)
deriving DecidableEq, Repr

/-- A lambda response dict: `statusCode`, the two headers every response of
`lambda_handler` carries, and the serialized body. -/
structure LambdaResponse where
  statusCode : Nat
  contentType : String
  allowOrigin : String
  body : RespBody
deriving DecidableEq, Repr

/-- The inbound event, after the body-extraction of lambda_function.py
lines 26-29 (`event['body']` parsed when present, else the event itself):

* `ok query`: the body is a dict whose `'query'` entry is absent
  (`body.get('query', '')` yields `''`) or the string `query`;
* `raises`: evaluating the body raises (malformed JSON in `event['body']`,
  or a non-string `'query'` value on which `.strip()` fails) — caught by
  the outer `except` of `lambda_handler`. -/
inductive HandlerEvent where
  | ok (query : Option String)
  | raises
deriving DecidableEq, Repr

/-- Function `lambda_handler` (lambda_function.py lines 19-86) with the command
generation abstracted as `gen : String → Option String` (the value
`generate_shell_command` returns for the stripped query).  The second
component records the queries `generate_shell_command` was called with. -/
def lambda_handler (gen : String → Option String) (ev : HandlerEvent) :
    LambdaResponse × List String :=
  match ev with
  | .raises =>
    (⟨500, "application/json", "*", .errorMsg "Internal server error"⟩, [])
  | .ok q =>
    let query := pyStrip (q.getD "")
    if query = "" then
      (⟨400, "application/json", "*", .errorMsg "Query parameter is required"⟩, [])
    else
      match gen query with
      | none =>
        (⟨500, "application/json", "*", .errorMsg "Failed to generate shell command"⟩, [query])
      | some command =>
        if command = "" then
          (⟨500, "application/json", "*", .errorMsg "Failed to generate shell command"⟩, [query])
        else
          (⟨200, "application/json", "*", .success command query⟩, [query])

/-- The response of `handle_cors_preflight` (lambda_function.py lines
276-287). -/
structure CorsResponse where
  statusCode : Nat
  allowOrigin : String
  allowMethods : String
  allowHeaders : String
  body : String
deriving DecidableEq, Repr

/-- Function `handle_cors_preflight` (lambda_function.py lines 276-287). -/
def handle_cors_preflight : CorsResponse :=
  ⟨200, "*", "POST, GET, OPTIONS", "Content-Type, Authorization", ""⟩

end LambdaAdapter

section Cli

/-- Outcome of the HTTP POST of `ShellMate.query_ai` to the service
endpoint:

* `success f`: status 2xx and the response decoded as JSON; `f` is the
  `'command'` field when present (`result.get('command', '')`);
* the error cases mirror the four `except` clauses of `query_ai`. -/
inductive TransportResult where
  | success (commandField : Option String)
  | httpError (code : Nat) (reason : String)
  | urlError (reason : String)
  | jsonError (msg : String)
  | otherError (msg : String)
deriving DecidableEq, Repr

/-- What `query_ai` leaves behind: the lines it printed to stderr and its
return value (`None` on any failure). -/
structure QueryAiOutcome where
  stderr : List String
  result : Option String
deriving DecidableEq, Repr

/-- Method `ShellMate.query_ai` (shellmate.py lines 25-67). -/
def ShellMate.query_ai : TransportResult → QueryAiOutcome
  | .success f => ⟨[], some (f.getD "")⟩
  | .httpError code reason => ⟨[s!"HTTP Error {code}: {reason}"], none⟩
  | .urlError reason => ⟨[s!"URL Error: {reason}"], none⟩
  | .jsonError msg => ⟨[s!"JSON Error: {msg}"], none⟩
  | .otherError msg => ⟨[s!"Unexpected error: {msg}"], none⟩

/-- What the operator does at the readline staging prompt: either presses
enter with a final edited line, or cancels (`KeyboardInterrupt` /
`EOFError`). -/
inductive StageInput where
  | line (text : String)
  | cancelled
deriving DecidableEq, Repr

/-- Observable outcome of a CLI call: the payloads of `print` calls to
stdout, the payloads of `print(..., file=sys.stderr)` calls, the commands
passed to `os.system`, and the returned boolean. -/
structure RunOutcome where
  stdout : List String
  stderr : List String
  executed : List String
  success : Bool
deriving DecidableEq, Repr

/-- Method `ShellMate.execute_command` (shellmate.py lines 69-126).  `sysExit c`
is the exit status `os.system(c)` would report; `inp` is the operator's
action at the staging prompt.  (The `input()` prompt character written to
the terminal is not part of the modelled stdout.) -/
def ShellMate.execute_command (showPrompt : Bool) (sysExit : String → Int)
    (command : String) (inp : StageInput) : RunOutcome :=
  if command = "" then
    ⟨[], ["No command generated"], [], false⟩
  else
    let header := s!"Generated command: {command}" ::
      (if showPrompt then ["Press Enter to execute, or Ctrl+C to cancel:"] else [])
    match inp with
    | .cancelled => ⟨header ++ ["\nCommand cancelled"], [], [], false⟩
    | .line text =>
      if pyStrip text = "" then
        ⟨header ++ ["No command to execute"], [], [], false⟩
      else
        ⟨header, [], [text], sysExit text = 0⟩

/-- Python `command.replace` with pattern a single backslash and replacement two: every literal backslash doubled
(shellmate.py line 142). -/
def escapeBackslashes (s : String) : String :=
  ⟨s.data.flatMap fun c => if c = '\\' then ['\\', '\\'] else [c]⟩

/-- Method `ShellMate.run` (shellmate.py lines 128-152).  `t` is the transport
outcome of `query_ai`; `showPrompt` is the value of the
`SHELLMATE_SHOW_PROMPT` toggle (read identically at lines 79 and 147). -/
def ShellMate.run (t : TransportResult) (showPrompt : Bool) (sysExit : String → Int)
    (inp : StageInput) (query : String) (seamless : Bool) : RunOutcome :=
  let qa := ShellMate.query_ai t
  match qa.result with
  | none =>
    ⟨[], qa.stderr ++ (if seamless then [] else ["Failed to get command from AI service"]),
      [], false⟩
  | some command =>
    if command = "" then
      ⟨[], qa.stderr ++ (if seamless then [] else ["Failed to get command from AI service"]),
        [], false⟩
    else if seamless then
      ⟨[escapeBackslashes command], qa.stderr, [], true⟩
    else
      let pre := if showPrompt then [s!"Query: {query}"] else []
      let ex := ShellMate.execute_command showPrompt sysExit command inp
      ⟨pre ++ ex.stdout, qa.stderr ++ ex.stderr, ex.executed, ex.success⟩

/-- Function `main` (shellmate.py lines 155-196), after a successful `ShellMate()`
construction (the endpoint check at lines 21-23 is configuration, outside
this model).  Returns the process exit code and, when `run` was reached,
its outcome.  With no query arguments, `parser.error` is called, which by
`argparse` semantics prints a usage message and exits the process with
status 2 — `run` is never reached. -/
def cliMain (queryArgs : List String) (t : TransportResult) (showPrompt : Bool)
    (sysExit : String → Int) (inp : StageInput) (seamless : Bool) :
    Nat × Option RunOutcome :=
  if queryArgs = [] then
    (2, none)
  else
    let query := String.intercalate " " queryArgs
    let out := ShellMate.run t showPrompt sysExit inp query seamless
    (if out.success then 0 else 1, some out)

end Cli

section Stubs

/-- Backend stub: throttled on attempts 0, 1, 2; succeeds on attempt 3. -/
def stubThrottle3 : Nat → BedrockResult :=
  fun n => if n < 3 then .clientError "ThrottlingException" "rate exceeded" else .ok "ls -la"

/-- Backend stub: a validation error on every attempt. -/
def stubValidation : Nat → BedrockResult :=
  fun _ => .clientError "ValidationException" "malformed request"

/-- Backend stub: an unclassified server error on every attempt. -/
def stubTransient : Nat → BedrockResult :=
  fun _ => .clientError "InternalServerException" "hiccup"

end Stubs

/-! ## Lemmas about the retry state machine -/

theorem pyMod_nonneg (x : ℚ) {m : ℚ} (hm : 0 < m) : 0 ≤ pyMod x m := by
  have h := Int.floor_le (x / m)
  have : (⌊x / m⌋ : ℚ) * m ≤ (x / m) * m :=
    mul_le_mul_of_nonneg_right h (le_of_lt hm)
  rw [div_mul_cancel₀ x (ne_of_gt hm)] at this
  simpa [pyMod] using this

theorem pyMod_lt (x : ℚ) {m : ℚ} (hm : 0 < m) : pyMod x m < m := by
  have h := Int.lt_floor_add_one (x / m)
  have : (x / m) * m < ((⌊x / m⌋ : ℚ) + 1) * m :=
    mul_lt_mul_of_pos_right h hm
  rw [div_mul_cancel₀ x (ne_of_gt hm)] at this
  rw [pyMod, sub_lt_iff_lt_add]
  linarith

/-- Unfolding of `retryLoop` on a successful attempt. -/
theorem retryLoop_success (backend : Nat → BedrockResult) (clock : Nat → ℚ)
    (attempt : Nat) (raw : String) (hb : backend attempt = .ok raw) :
    retryLoop backend clock attempt = ⟨.ok raw, 1, []⟩ := by
  rw [retryLoop.eq_def, hb]

/-- Unfolding of `retryLoop` on a throttled attempt with retries left. -/
theorem retryLoop_throttled (backend : Nat → BedrockResult) (clock : Nat → ℚ)
    (attempt : Nat) (code msg : String) (hb : backend attempt = .clientError code msg)
    (hcode : code ∈ throttleCodes) (hlt : attempt < max_retries) :
    retryLoop backend clock attempt =
      ⟨(retryLoop backend clock (attempt + 1)).result,
       (retryLoop backend clock (attempt + 1)).attemptsMade + 1,
       (base_delay * 2 ^ attempt + pyMod (clock attempt) (1 / 2)) ::
         (retryLoop backend clock (attempt + 1)).sleeps⟩ := by
  rw [retryLoop.eq_def, hb]
  dsimp only
  rw [dif_pos ⟨hcode, hlt⟩]

/-- Unfolding of `retryLoop` on a `ValidationException`: re-raised at once,
no sleep, no retry. -/
theorem retryLoop_validation (backend : Nat → BedrockResult) (clock : Nat → ℚ)
    (attempt : Nat) (msg : String)
    (hb : backend attempt = .clientError "ValidationException" msg) :
    retryLoop backend clock attempt = ⟨.error "ValidationException", 1, []⟩ := by
  rw [retryLoop.eq_def, hb]
  dsimp only
  rw [dif_neg (fun h => absurd h.1 (by decide))]
  rw [if_pos rfl]

/-- Unfolding of `retryLoop` on a non-validation failure with retries
left and a code outside the throttling set: linear backoff. -/
theorem retryLoop_transient (backend : Nat → BedrockResult) (clock : Nat → ℚ)
    (attempt : Nat) (code msg : String) (hb : backend attempt = .clientError code msg)
    (hcode : code ∉ throttleCodes) (hv : code ≠ "ValidationException")
    (hlt : attempt < max_retries) :
    retryLoop backend clock attempt =
      ⟨(retryLoop backend clock (attempt + 1)).result,
       (retryLoop backend clock (attempt + 1)).attemptsMade + 1,
       (1 + (attempt : ℚ) * (1 / 2)) :: (retryLoop backend clock (attempt + 1)).sleeps⟩ := by
  rw [retryLoop.eq_def, hb]
  dsimp only
  rw [dif_neg (fun h => hcode h.1), if_neg hv, dif_pos hlt]

/-- Unfolding of `retryLoop` on a non-validation failure with retries
exhausted: re-raised. -/
theorem retryLoop_exhausted (backend : Nat → BedrockResult) (clock : Nat → ℚ)
    (attempt : Nat) (code msg : String) (hb : backend attempt = .clientError code msg)
    (hv : code ≠ "ValidationException") (hge : ¬ attempt < max_retries) :
    retryLoop backend clock attempt = ⟨.error code, 1, []⟩ := by
  rw [retryLoop.eq_def, hb]
  dsimp only
  rw [dif_neg (fun h => hge h.2), if_neg hv, dif_neg hge]

/-- The loop makes at most `max_retries + 1 - min attempt max_retries`
calls when started at `attempt`. -/
theorem retryLoop_attempts_le (backend : Nat → BedrockResult) (clock : Nat → ℚ) :
    ∀ (k attempt : Nat), max_retries + 1 - attempt ≤ k →
      (retryLoop backend clock attempt).attemptsMade ≤
        max_retries + 1 - min attempt max_retries := by
  intro k
  induction k with
  | zero =>
    intro attempt h
    have hge : ¬ attempt < max_retries := by omega
    cases hb : backend attempt with
    | ok raw => rw [retryLoop_success backend clock attempt raw hb]; simp [max_retries]; omega
    | clientError code msg =>
      by_cases hv : code = "ValidationException"
      · subst hv
        rw [retryLoop_validation backend clock attempt msg hb]
        simp [max_retries]; omega
      · rw [retryLoop_exhausted backend clock attempt code msg hb hv hge]
        simp [max_retries]; omega
  | succ k ih =>
    intro attempt h
    cases hb : backend attempt with
    | ok raw => rw [retryLoop_success backend clock attempt raw hb]; simp [max_retries]; omega
    | clientError code msg =>
      by_cases hv : code = "ValidationException"
      · subst hv
        rw [retryLoop_validation backend clock attempt msg hb]
        simp [max_retries]; omega
      · by_cases hlt : attempt < max_retries
        · have hih := ih (attempt + 1) (by omega)
          by_cases hth : code ∈ throttleCodes
          · rw [retryLoop_throttled backend clock attempt code msg hb hth hlt]
            simp only []
            revert hih
            simp [max_retries] at hlt ⊢
            omega
          · rw [retryLoop_transient backend clock attempt code msg hb hth hv hlt]
            simp only []
            revert hih
            simp [max_retries] at hlt ⊢
            omega
        · rw [retryLoop_exhausted backend clock attempt code msg hb hv hlt]
          simp [max_retries]; omega

/-- C1: on a throttled failure of attempt `n` with `n < max_retries = 5`,
the loop sleeps `base_delay * 2 ^ n + jitter` with `base_delay = 2` and
`jitter = time.time() % 0.5 ∈ [0, 0.5)` before attempt `n + 1`; for a
backend stub throttled on attempts 0, 1 and 2 and successful on attempt 3,
the loop returns that success after exactly 4 attempts, the slept delays
being `2 + j₀, 4 + j₁, 8 + j₂`, which are monotonically non-decreasing
once the jitter is ignored. -/
theorem throttled_backoff_C1 (backend : Nat → BedrockResult) (clock : Nat → ℚ)
    (raw c0 c1 c2 m0 m1 m2 : String)
    (h0 : backend 0 = .clientError c0 m0) (hc0 : c0 ∈ throttleCodes)
    (h1 : backend 1 = .clientError c1 m1) (hc1 : c1 ∈ throttleCodes)
    (h2 : backend 2 = .clientError c2 m2) (hc2 : c2 ∈ throttleCodes)
    (h3 : backend 3 = .ok raw) :
    retryLoop backend clock 0 =
      ⟨.ok raw, 4,
        [base_delay * 2 ^ 0 + pyMod (clock 0) (1 / 2),
         base_delay * 2 ^ 1 + pyMod (clock 1) (1 / 2),
         base_delay * 2 ^ 2 + pyMod (clock 2) (1 / 2)]⟩ ∧
    (∀ n, 0 ≤ pyMod (clock n) (1 / 2) ∧ pyMod (clock n) (1 / 2) < 1 / 2) ∧
    List.Chain' (· ≤ ·) [base_delay * 2 ^ 0, base_delay * 2 ^ 1, base_delay * 2 ^ 2] := by
  refine ⟨?_, fun n => ⟨pyMod_nonneg _ (by norm_num), pyMod_lt _ (by norm_num)⟩, ?_⟩
  · rw [retryLoop_throttled backend clock 0 c0 m0 h0 hc0 (by decide),
      retryLoop_throttled backend clock 1 c1 m1 h1 hc1 (by decide),
      retryLoop_throttled backend clock 2 c2 m2 h2 hc2 (by decide),
      retryLoop_success backend clock 3 raw h3]
  · simp [base_delay]
    norm_num

/-- C1 witness: the concrete stub, with the clock frozen at 0 (jitter 0). -/
theorem throttled_backoff_C1_witness :
    retryLoop stubThrottle3 (fun _ : Nat => (0 : ℚ)) 0 =
      ⟨.ok "ls -la", 4,
        [base_delay * 2 ^ 0 + pyMod ((fun _ : Nat => (0 : ℚ)) 0) (1 / 2),
         base_delay * 2 ^ 1 + pyMod ((fun _ : Nat => (0 : ℚ)) 1) (1 / 2),
         base_delay * 2 ^ 2 + pyMod ((fun _ : Nat => (0 : ℚ)) 2) (1 / 2)]⟩ ∧
    (∀ n, 0 ≤ pyMod ((fun _ : Nat => (0 : ℚ)) n) (1 / 2) ∧
      pyMod ((fun _ : Nat => (0 : ℚ)) n) (1 / 2) < 1 / 2) ∧
    List.Chain' (· ≤ ·) [base_delay * 2 ^ 0, base_delay * 2 ^ 1, base_delay * 2 ^ 2] :=
  throttled_backoff_C1 stubThrottle3 (fun _ : Nat => (0 : ℚ)) "ls -la"
    "ThrottlingException" "ThrottlingException" "ThrottlingException"
    "rate exceeded" "rate exceeded" "rate exceeded"
    rfl (by decide) rfl (by decide) rfl (by decide) rfl

/-- C2: a `ValidationException` (the `InvalidRequest` classification) on
attempt 0 ends the loop at once: exactly one attempt, no sleep, and the
failure is reported with the validation error code. -/
theorem validation_no_retry_C2 (backend : Nat → BedrockResult) (clock : Nat → ℚ)
    (msg : String) (h0 : backend 0 = .clientError "ValidationException" msg) :
    retryLoop backend clock 0 = ⟨.error "ValidationException", 1, []⟩ :=
  retryLoop_validation backend clock 0 msg h0

/-- C2 witness: the concrete validation-failing stub. -/
theorem validation_no_retry_C2_witness :
    retryLoop stubValidation (fun _ : Nat => (0 : ℚ)) 0 = ⟨.error "ValidationException", 1, []⟩ :=
  validation_no_retry_C2 stubValidation (fun _ : Nat => (0 : ℚ)) "malformed request" rfl

/-- C3: a failure whose code is neither a throttling code nor
`ValidationException` is retried after a sleep of exactly `1 + 0.5 * n`
when it hit attempt `n < max_retries = 5`; and the loop never makes more
than 6 attempts in total. -/
theorem transient_retry_C3 :
    (∀ (backend : Nat → BedrockResult) (clock : Nat → ℚ) (n : Nat) (code msg : String),
        backend n = .clientError code msg → code ∉ throttleCodes →
        code ≠ "ValidationException" → n < max_retries →
        retryLoop backend clock n =
          ⟨(retryLoop backend clock (n + 1)).result,
           (retryLoop backend clock (n + 1)).attemptsMade + 1,
           (1 + (n : ℚ) * (1 / 2)) :: (retryLoop backend clock (n + 1)).sleeps⟩) ∧
    (∀ (backend : Nat → BedrockResult) (clock : Nat → ℚ),
        (retryLoop backend clock 0).attemptsMade ≤ 6) := by
  refine ⟨fun backend clock n code msg hb hth hv hlt =>
    retryLoop_transient backend clock n code msg hb hth hv hlt, fun backend clock => ?_⟩
  have h := retryLoop_attempts_le backend clock (max_retries + 1) 0 (by omega)
  simpa [max_retries] using h

/-- C3 witness: the always-transient stub, examined at attempt 4, plus the
global attempt bound at attempt 0. -/
theorem transient_retry_C3_witness :
    retryLoop stubTransient (fun _ : Nat => (0 : ℚ)) 4 =
      ⟨(retryLoop stubTransient (fun _ : Nat => (0 : ℚ)) 5).result,
       (retryLoop stubTransient (fun _ : Nat => (0 : ℚ)) 5).attemptsMade + 1,
       (1 + (4 : ℚ) * (1 / 2)) :: (retryLoop stubTransient (fun _ : Nat => (0 : ℚ)) 5).sleeps⟩ ∧
    (retryLoop stubTransient (fun _ : Nat => (0 : ℚ)) 0).attemptsMade ≤ 6 :=
  ⟨transient_retry_C3.1 stubTransient (fun _ : Nat => (0 : ℚ)) 4 "InternalServerException" "hiccup"
      rfl (by decide) (by decide) (by decide),
    transient_retry_C3.2 stubTransient (fun _ : Nat => (0 : ℚ))⟩

/-! ## The Request Service Adapter -/

/-- C4: when the query is absent, empty, or whitespace-only after
stripping, `lambda_handler` answers 400 with body
`{"error": "Query parameter is required"}` and never calls
`generate_shell_command` (the recorded call list is empty). -/
theorem empty_query_rejected_C4 (gen : String → Option String) (q : Option String)
    (h : q = none ∨ ∃ s, q = some s ∧ pyStrip s = "") :
    lambda_handler gen (.ok q) =
      (⟨400, "application/json", "*", .errorMsg "Query parameter is required"⟩, []) := by
  rcases h with rfl | ⟨s, rfl, hs⟩
  · rfl
  · simp [lambda_handler, hs]

/-- C4 witness: a whitespace-only query. -/
theorem empty_query_rejected_C4_witness :
    lambda_handler (fun _ : String => (none : Option String)) (.ok (some " \t ")) =
      (⟨400, "application/json", "*", .errorMsg "Query parameter is required"⟩, []) :=
  empty_query_rejected_C4 (fun _ : String => (none : Option String)) (some " \t ")
    (Or.inr ⟨" \t ", rfl, by decide⟩)

/-- C8: every 500 response of `lambda_handler` carries exactly
`{"error": "Failed to generate shell command"}` or
`{"error": "Internal server error"}`; a generation failure produces the
former, an internal exception the latter; and the handler is total — for
every event it returns a response with status 200, 400 or 500, never
propagating an exception. -/
theorem generic_server_error_C8 :
    (∀ (gen : String → Option String) (ev : HandlerEvent),
        (lambda_handler gen ev).1.statusCode = 500 →
        (lambda_handler gen ev).1.body = .errorMsg "Failed to generate shell command" ∨
        (lambda_handler gen ev).1.body = .errorMsg "Internal server error") ∧
    (∀ (gen : String → Option String) (q : String),
        pyStrip q ≠ "" → gen (pyStrip q) = none →
        lambda_handler gen (.ok (some q)) =
          (⟨500, "application/json", "*", .errorMsg "Failed to generate shell command"⟩,
            [pyStrip q])) ∧
    (∀ gen : String → Option String,
        lambda_handler gen .raises =
          (⟨500, "application/json", "*", .errorMsg "Internal server error"⟩, [])) ∧
    (∀ (gen : String → Option String) (ev : HandlerEvent),
        (lambda_handler gen ev).1.statusCode = 200 ∨
        (lambda_handler gen ev).1.statusCode = 400 ∨
        (lambda_handler gen ev).1.statusCode = 500) := by
  refine ⟨fun gen ev h => ?_, fun gen q h1 h2 => ?_, fun gen => rfl, fun gen ev => ?_⟩
  · cases ev with
    | raises => right; rfl
    | ok q =>
      by_cases hq : pyStrip (q.getD "") = ""
      · simp [lambda_handler, hq] at h
      · cases hg : gen (pyStrip (q.getD "")) with
        | none => left; simp [lambda_handler, hq, hg]
        | some c =>
          by_cases hc : c = ""
          · left; simp [lambda_handler, hq, hg, hc]
          · simp [lambda_handler, hq, hg, hc] at h
  · simp [lambda_handler, h1, h2]
  · cases ev with
    | raises => right; right; rfl
    | ok q =>
      by_cases hq : pyStrip (q.getD "") = ""
      · right; left; simp [lambda_handler, hq]
      · cases hg : gen (pyStrip (q.getD "")) with
        | none => right; right; simp [lambda_handler, hq, hg]
        | some c =>
          by_cases hc : c = ""
          · right; right; simp [lambda_handler, hq, hg, hc]
          · left; simp [lambda_handler, hq, hg, hc]

/-- C8 witness: a failing generator on a concrete non-empty query, and the
exception path. -/
theorem generic_server_error_C8_witness :
    lambda_handler (fun _ : String => (none : Option String)) (.ok (some "list files")) =
      (⟨500, "application/json", "*", .errorMsg "Failed to generate shell command"⟩,
        [pyStrip "list files"]) ∧
    lambda_handler (fun _ : String => (none : Option String)) .raises =
      (⟨500, "application/json", "*", .errorMsg "Internal server error"⟩, []) :=
  ⟨generic_server_error_C8.2.1 (fun _ : String => (none : Option String)) "list files"
      (by decide) rfl,
    generic_server_error_C8.2.2.1 (fun _ : String => (none : Option String))⟩

/-- C9: the CORS preflight handler answers with status 200, an empty body,
and advertises the methods `POST, GET, OPTIONS` (with the unrestricted
origin header). -/
theorem cors_preflight_C9 :
    handle_cors_preflight.statusCode = 200 ∧ handle_cors_preflight.body = "" ∧
    handle_cors_preflight.allowMethods = "POST, GET, OPTIONS" ∧
    handle_cors_preflight.allowOrigin = "*" :=
  ⟨rfl, rfl, rfl, rfl⟩

/-! ## The CLI orchestrator -/

/-- C10: in interactive mode, a staged line edited down to whitespace and
confirmed executes nothing (`os.system` is never reached) and the call
returns `false` — the same outcome as a cancellation. -/
theorem blank_staged_line_C10 (showPrompt : Bool) (sysExit : String → Int)
    (command text : String) (hc : command ≠ "") (ht : pyStrip text = "") :
    (ShellMate.execute_command showPrompt sysExit command (.line text)).executed = [] ∧
    (ShellMate.execute_command showPrompt sysExit command (.line text)).success = false ∧
    (ShellMate.execute_command showPrompt sysExit command (.line text)).success =
      (ShellMate.execute_command showPrompt sysExit command .cancelled).success := by
  simp [ShellMate.execute_command, hc, ht]

/-- C10 witness: a whitespace-only edited line. -/
theorem blank_staged_line_C10_witness :
    (ShellMate.execute_command true (fun _ : String => (0 : Int)) "ls -la"
        (.line "  ")).executed = [] ∧
    (ShellMate.execute_command true (fun _ : String => (0 : Int)) "ls -la"
        (.line "  ")).success = false ∧
    (ShellMate.execute_command true (fun _ : String => (0 : Int)) "ls -la"
        (.line "  ")).success =
      (ShellMate.execute_command true (fun _ : String => (0 : Int)) "ls -la"
        .cancelled).success :=
  blank_staged_line_C10 true (fun _ : String => (0 : Int)) "ls -la" "  "
    (by decide) (by decide)

/-- C6 counterexample: in seamless mode, a transport failure (an HTTP
error) *does* emit an error message — `query_ai` prints its diagnostic to
stderr — refuting "on any failure … emits no error message". -/
theorem seamless_counterexample_C6 :
    (ShellMate.run (.httpError 502 "Bad Gateway") true (fun _ : String => (0 : Int))
        .cancelled "list files" true).success = false ∧
    (ShellMate.run (.httpError 502 "Bad Gateway") true (fun _ : String => (0 : Int))
        .cancelled "list files" true).stdout = [] ∧
    (ShellMate.run (.httpError 502 "Bad Gateway") true (fun _ : String => (0 : Int))
        .cancelled "list files" true).stderr = ["HTTP Error 502: Bad Gateway"] := by
  refine ⟨rfl, rfl, rfl⟩

/-- C6 amended: in seamless mode, on success the CLI writes exactly the
backslash-doubled command to stdout and returns true; on any failure —
the empty-string command treated identically to an explicit failure — it
writes nothing to stdout and returns false, and `run` itself adds no error
message: the only stderr output is the diagnostic `query_ai` already
printed for a transport/decoding failure (none for the empty-command
case). -/
theorem seamless_mode_C6_amended :
    (∀ (c : String) (showPrompt : Bool) (sysExit : String → Int) (inp : StageInput)
        (query : String), c ≠ "" →
        ShellMate.run (.success (some c)) showPrompt sysExit inp query true =
          ⟨[escapeBackslashes c], [], [], true⟩) ∧
    (∀ (t : TransportResult) (showPrompt : Bool) (sysExit : String → Int)
        (inp : StageInput) (query : String),
        (ShellMate.query_ai t).result = none ∨ (ShellMate.query_ai t).result = some "" →
        ShellMate.run t showPrompt sysExit inp query true =
          ⟨[], (ShellMate.query_ai t).stderr, [], false⟩) ∧
    (∀ f : Option String, (ShellMate.query_ai (.success f)).stderr = []) := by
  refine ⟨fun c showPrompt sysExit inp query hc => ?_, fun t showPrompt sysExit inp query h => ?_,
    fun f => rfl⟩
  · simp [ShellMate.run, ShellMate.query_ai, hc]
  · cases t with
    | success f =>
      rcases h with h | h
      · simp [ShellMate.query_ai] at h
      · simp [ShellMate.query_ai] at h ⊢
        simp [ShellMate.run, ShellMate.query_ai, h]
    | httpError code reason => simp [ShellMate.run, ShellMate.query_ai]
    | urlError reason => simp [ShellMate.run, ShellMate.query_ai]
    | jsonError msg => simp [ShellMate.run, ShellMate.query_ai]
    | otherError msg => simp [ShellMate.run, ShellMate.query_ai]

/-- C6 amended witness: a successful command containing a literal
backslash, and the empty-command failure. -/
theorem seamless_mode_C6_amended_witness :
    ShellMate.run (.success (some "grep foo\\.txt .")) true (fun _ : String => (0 : Int))
        .cancelled "q" true =
      ⟨[escapeBackslashes "grep foo\\.txt ."], [], [], true⟩ ∧
    ShellMate.run (.success (some "")) true (fun _ : String => (0 : Int))
        .cancelled "q" true =
      ⟨[], (ShellMate.query_ai (.success (some ""))).stderr, [], false⟩ :=
  ⟨seamless_mode_C6_amended.1 "grep foo\\.txt ." true (fun _ : String => (0 : Int))
      .cancelled "q" (by decide),
    seamless_mode_C6_amended.2.1 (.success (some "")) true (fun _ : String => (0 : Int))
      .cancelled "q" (Or.inr rfl)⟩

/-- C7 counterexample: with no query argument the process exits with the
`argparse` usage-error status 2, not 1 — refuting "exits with code 1 …
including the case where no query argument is supplied". -/
theorem exit_code_counterexample_C7 :
    (cliMain [] (.success (some "ls")) true (fun _ : String => (0 : Int))
        .cancelled false).1 = 2 ∧
    (cliMain [] (.success (some "ls")) true (fun _ : String => (0 : Int))
        .cancelled false).1 ≠ 1 :=
  ⟨rfl, by decide⟩

/-- C7 amended: when a query is supplied, the process exits 0 on success
and 1 on every failure (generation failure, and operator cancellation at
the staging prompt, which also executes no command); when no query is
supplied, `parser.error` ends the process with the argparse usage-error
exit code 2 before `run` is reached. -/
theorem exit_codes_C7_amended :
    (∀ (args : List String) (t : TransportResult) (showPrompt : Bool)
        (sysExit : String → Int) (inp : StageInput) (seamless : Bool), args ≠ [] →
        (cliMain args t showPrompt sysExit inp seamless).1 =
          if (ShellMate.run t showPrompt sysExit inp
              (String.intercalate " " args) seamless).success then 0 else 1) ∧
    (∀ (t : TransportResult) (showPrompt : Bool) (sysExit : String → Int)
        (inp : StageInput) (seamless : Bool),
        cliMain [] t showPrompt sysExit inp seamless = (2, none)) ∧
    (∀ (args : List String) (t : TransportResult) (showPrompt : Bool)
        (sysExit : String → Int), args ≠ [] →
        ∃ o, (cliMain args t showPrompt sysExit .cancelled false).2 = some o ∧
          o.executed = [] ∧ o.success = false ∧
          (cliMain args t showPrompt sysExit .cancelled false).1 = 1) := by
  refine ⟨fun args t showPrompt sysExit inp seamless ha => ?_, fun t showPrompt sysExit inp seamless => rfl,
    fun args t showPrompt sysExit ha => ?_⟩
  · simp [cliMain, ha]
  · have hrun : (ShellMate.run t showPrompt sysExit .cancelled
        (String.intercalate " " args) false).executed = [] ∧
        (ShellMate.run t showPrompt sysExit .cancelled
          (String.intercalate " " args) false).success = false := by
      cases t with
      | success f =>
        by_cases hf : f.getD "" = ""
        · simp [ShellMate.run, ShellMate.query_ai, hf]
        · simp [ShellMate.run, ShellMate.query_ai, hf, ShellMate.execute_command]
      | httpError code reason => simp [ShellMate.run, ShellMate.query_ai]
      | urlError reason => simp [ShellMate.run, ShellMate.query_ai]
      | jsonError msg => simp [ShellMate.run, ShellMate.query_ai]
      | otherError msg => simp [ShellMate.run, ShellMate.query_ai]
    refine ⟨ShellMate.run t showPrompt sysExit .cancelled
      (String.intercalate " " args) false, ?_, hrun.1, hrun.2, ?_⟩
    · simp [cliMain, ha]
    · simp [cliMain, ha, hrun.2]

/-- C7 amended witness: a cancelled interactive invocation with a concrete
query. -/
theorem exit_codes_C7_amended_witness :
    (cliMain ["list", "files"] (.success (some "ls")) true (fun _ : String => (0 : Int))
        .cancelled false).1 =
      (if (ShellMate.run (.success (some "ls")) true (fun _ : String => (0 : Int))
          .cancelled (String.intercalate " " ["list", "files"]) false).success
        then 0 else 1) ∧
    cliMain ([] : List String) (.success (some "ls")) true (fun _ : String => (0 : Int))
        .cancelled false = (2, none) ∧
    ∃ o, (cliMain ["list", "files"] (.success (some "ls")) true
          (fun _ : String => (0 : Int)) .cancelled false).2 = some o ∧
        o.executed = [] ∧ o.success = false ∧
        (cliMain ["list", "files"] (.success (some "ls")) true
          (fun _ : String => (0 : Int)) .cancelled false).1 = 1 :=
  ⟨exit_codes_C7_amended.1 ["list", "files"] (.success (some "ls")) true
      (fun _ : String => (0 : Int)) .cancelled false (by decide),
    exit_codes_C7_amended.2.1 (.success (some "ls")) true (fun _ : String => (0 : Int))
      .cancelled false,
    exit_codes_C7_amended.2.2 ["list", "files"] (.success (some "ls")) true
      (fun _ : String => (0 : Int)) (by decide)⟩

/-! ## The response sanitizer -/

theorem hasBT3_cons_false {c : Char} {l : List Char} (h : hasBT3 (c :: l) = false) :
    hasBT3 l = false := by
  match l with
  | [] => rfl
  | [d] => rfl
  | d :: e :: l' =>
    simp only [hasBT3, Bool.or_eq_false_iff] at h
    exact h.2

theorem hasBT3_cons_true {c : Char} {l : List Char} (h : hasBT3 l = true) :
    hasBT3 (c :: l) = true := by
  match l with
  | [] => exact absurd h (by simp [hasBT3])
  | [d] => exact absurd h (by simp [hasBT3])
  | d :: e :: l' =>
    simp only [hasBT3, Bool.or_eq_true]
    exact Or.inr h

theorem hasBT3_append_left : ∀ {t : List Char} (r : List Char), hasBT3 t = true →
    hasBT3 (t ++ r) = true
  | [], _, h => absurd h (by simp [hasBT3])
  | [c], _, h => absurd h (by simp [hasBT3])
  | [c, d], _, h => absurd h (by simp [hasBT3])
  | c :: d :: e :: t', r, h => by
    simp only [hasBT3, Bool.or_eq_true] at h
    simp only [List.cons_append, hasBT3, Bool.or_eq_true]
    rcases h with h | h
    · exact Or.inl h
    · have hrec := hasBT3_append_left r h
      simp only [List.cons_append] at hrec
      exact Or.inr hrec

theorem hasBT3_append_right {r : List Char} (t : List Char) (h : hasBT3 r = true) :
    hasBT3 (t ++ r) = true := by
  induction t with
  | nil => simpa using h
  | cons c t' ih =>
    rw [List.cons_append]
    exact hasBT3_cons_true ih

theorem hasBT3_of_append_left {t r : List Char} (h : hasBT3 (t ++ r) = false) :
    hasBT3 t = false := by
  cases ht : hasBT3 t with
  | false => rfl
  | true => rw [hasBT3_append_left r ht] at h; simp at h

theorem hasBT3_of_append_right {t r : List Char} (h : hasBT3 (t ++ r) = false) :
    hasBT3 r = false := by
  cases hr : hasBT3 r with
  | false => rfl
  | true => rw [hasBT3_append_right t hr] at h; simp at h

theorem hasBT3_stripL {l : List Char} (h : hasBT3 l = false) :
    hasBT3 (stripL l) = false := by
  have h1 : hasBT3 (List.dropWhile pyIsSpace l) = false := by
    obtain ⟨t, ht⟩ := List.dropWhile_suffix (l := l) pyIsSpace
    exact hasBT3_of_append_right (ht ▸ h)
  obtain ⟨t, ht⟩ := List.rdropWhile_prefix pyIsSpace (List.dropWhile pyIsSpace l)
  exact hasBT3_of_append_left (ht ▸ h1)

theorem dropWhile_stripL (l : List Char) :
    List.dropWhile pyIsSpace (stripL l) = stripL l := by
  cases hs : stripL l with
  | nil => rfl
  | cons a as =>
    obtain ⟨t, ht⟩ := List.rdropWhile_prefix pyIsSpace (List.dropWhile pyIsSpace l)
    have hq : (List.dropWhile pyIsSpace l).head? = some a := by
      rw [← ht]
      show (stripL l ++ t).head? = some a
      rw [hs]
      rfl
    have hq2 := List.head?_dropWhile_not pyIsSpace l
    rw [hq] at hq2
    simp only at hq2
    rw [List.dropWhile_cons, if_neg (by simp [hq2])]

theorem stripL_idem (l : List Char) : stripL (stripL l) = stripL l := by
  show List.rdropWhile pyIsSpace (List.dropWhile pyIsSpace (stripL l)) = stripL l
  rw [dropWhile_stripL]
  show List.rdropWhile pyIsSpace
      (List.rdropWhile pyIsSpace (List.dropWhile pyIsSpace l)) = _
  rw [List.rdropWhile_idempotent]
  rfl

theorem lead_le_one_of_not_bt {d e : Char} (rest : List Char)
    (h : ¬ (d = btick ∧ e = btick)) : lead (d :: e :: rest) ≤ 1 := by
  by_cases hd : d = btick
  · by_cases he : e = btick
    · exact absurd ⟨hd, he⟩ h
    · simp [lead, hd, he]
  · simp [lead, hd]

theorem hasBT3_cons_eq (c : Char) (w : List Char) :
    hasBT3 (c :: w) = (decide (c = btick ∧ 2 ≤ lead w) || hasBT3 w) := by
  match w with
  | [] => simp [hasBT3, lead]
  | [d] =>
    by_cases hd : d = btick <;> simp [hasBT3, lead, hd]
  | d :: e :: w' =>
    by_cases hd : d = btick
    · subst hd
      by_cases he : e = btick
      · subst he
        have h2 : 2 ≤ lead (btick :: btick :: w') := by
          simp [lead]
        simp [hasBT3, h2]
      · have h2 : ¬ 2 ≤ lead (btick :: e :: w') := by
          simp [lead, he]
        simp [hasBT3, he, h2]
    · have h2 : ¬ 2 ≤ lead (d :: e :: w') := by
        simp only [lead, if_neg hd]
        omega
      simp [hasBT3, hd, h2]

theorem removeBTL_clean : ∀ l : List Char,
    hasBT3 (removeBTL l) = false ∧ lead (removeBTL l) ≤ lead l
  | [] => ⟨rfl, Nat.le_refl _⟩
  | [c] => ⟨rfl, Nat.le_refl _⟩
  | [c, d] => ⟨rfl, Nat.le_refl _⟩
  | c :: d :: e :: rest => by
    have ih1 := removeBTL_clean rest
    have ih2 := removeBTL_clean (d :: e :: rest)
    by_cases h : c = btick ∧ d = btick ∧ e = btick
    · refine ⟨?_, ?_⟩
      · simpa only [removeBTL, if_pos h] using ih1.1
      · have hlead : lead (c :: d :: e :: rest) = lead rest + 3 := by
          simp [lead, h.1, h.2.1, h.2.2]
        simp only [removeBTL, if_pos h, hlead]
        have := ih1.2
        omega
    · have hrw : removeBTL (c :: d :: e :: rest) = c :: removeBTL (d :: e :: rest) := by
        simp only [removeBTL, if_neg h]
      refine ⟨?_, ?_⟩
      · rw [hrw, hasBT3_cons_eq, Bool.or_eq_false_iff]
        refine ⟨?_, ih2.1⟩
        rw [decide_eq_false_iff_not]
        rintro ⟨hc, h2⟩
        have hde : ¬ (d = btick ∧ e = btick) := fun hde => h ⟨hc, hde.1, hde.2⟩
        have hl1 := lead_le_one_of_not_bt rest hde
        have hih := ih2.2
        simp only [lead] at hl1 hih
        omega
      · rw [hrw]
        by_cases hc : c = btick
        · simp only [lead, if_pos hc]
          have hih := ih2.2
          simp only [lead] at hih
          omega
        · simp [lead, hc]

theorem hasBT3_removeBTL (l : List Char) : hasBT3 (removeBTL l) = false :=
  (removeBTL_clean l).1

theorem removeBTL_eq_self : ∀ {l : List Char}, hasBT3 l = false → removeBTL l = l
  | [], _ => rfl
  | [c], _ => rfl
  | [c, d], _ => rfl
  | c :: d :: e :: rest, h => by
    have h1 : ¬ (c = btick ∧ d = btick ∧ e = btick) := by
      rintro ⟨e1, e2, e3⟩
      subst e1; subst e2; subst e3
      simp [hasBT3] at h
    have h2 := hasBT3_cons_false h
    have hrw : removeBTL (c :: d :: e :: rest) = c :: removeBTL (d :: e :: rest) := by
      simp only [removeBTL, if_neg h1]
    rw [hrw, removeBTL_eq_self h2]

theorem removeBTBashL_eq_self : ∀ {l : List Char}, hasBT3 l = false → removeBTBashL l = l
  | [], _ => rfl
  | [_], _ => rfl
  | [_, _], _ => rfl
  | [_, _, _], _ => rfl
  | [_, _, _, _], _ => rfl
  | [_, _, _, _, _], _ => rfl
  | [_, _, _, _, _, _], _ => rfl
  | c1 :: c2 :: c3 :: c4 :: c5 :: c6 :: c7 :: rest, h => by
    have h1 : ¬ (c1 = btick ∧ c2 = btick ∧ c3 = btick ∧ c4 = 'b' ∧ c5 = 'a' ∧
        c6 = 's' ∧ c7 = 'h') := by
      rintro ⟨e1, e2, e3, -⟩
      subst e1; subst e2; subst e3
      simp [hasBT3] at h
    have h2 := hasBT3_cons_false h
    have hrw : removeBTBashL (c1 :: c2 :: c3 :: c4 :: c5 :: c6 :: c7 :: rest) =
        c1 :: removeBTBashL (c2 :: c3 :: c4 :: c5 :: c6 :: c7 :: rest) := by
      simp only [removeBTBashL, if_neg h1]
    rw [hrw, removeBTBashL_eq_self h2]

theorem hasBT3_sanitizeL (l : List Char) : hasBT3 (sanitizeL l) = false :=
  hasBT3_stripL (hasBT3_removeBTL _)

theorem sanitizeL_idem (l : List Char) : sanitizeL (sanitizeL l) = sanitizeL l := by
  have hbt : hasBT3 (sanitizeL l) = false := hasBT3_sanitizeL l
  have h1 : stripL (sanitizeL l) = sanitizeL l := stripL_idem _
  show stripL (removeBTL (removeBTBashL (stripL (sanitizeL l)))) = sanitizeL l
  rw [h1, removeBTBashL_eq_self hbt, removeBTL_eq_self hbt, h1]

/-- C5: the response sanitizer is a total function, idempotent on every
string, and it strips both a bare and a language-tagged fenced-code
marker: `sanitize "```bash\nls -la\n```" = "ls -la"`. -/
theorem sanitize_idempotent_C5 :
    (∀ x : String, sanitize (sanitize x) = sanitize x) ∧
    sanitize "```bash\nls -la\n```" = "ls -la" := by
  constructor
  · intro x
    show String.mk (sanitizeL (String.mk (sanitizeL x.data)).data) = String.mk (sanitizeL x.data)
    rw [show (String.mk (sanitizeL x.data)).data = sanitizeL x.data from rfl, sanitizeL_idem]
  · decide
